import Mathlib

/-!
Verification of the ffxiv-dps-calc damage core against its specification.

The definitions below are a shallow embedding of `src/backend/calc.py` and
`src/backend/pps/sch.py`.  Python integers are modelled by `ℤ` (Python `//`
and `%` on integers with a positive divisor coincide with Lean's `/` and `%`
on `ℤ`, i.e. Euclidean = floor division), Python floats by exact rationals
`ℚ`, `math.floor` by `Int.floor`, and Python sets by `Finset`.
-/

/-- The `Stats` enum of calc.py (lines 13-34): one tag per stat kind. -/
inductive Stats
  | MAINSTAT | DET | CRIT | DH | SPEED | TEN | PIE | GCD | PRECISION
deriving DecidableEq, Fintype

/-- `Stats.base`: first component of each enum member of calc.py. -/
def Stats.base : Stats → ℤ
  | .MAINSTAT => 340
  | .DET => 340
  | .CRIT => 380
  | .DH => 380
  | .SPEED => 380
  | .TEN => 380
  | .PIE => 340
  | .GCD => 2500
  | .PRECISION => 1000

/-- `Stats.m_factor`: second component of each enum member of calc.py. -/
def Stats.m_factor : Stats → ℤ
  | .MAINSTAT => 165
  | .DET => 130
  | .CRIT => 200
  | .DH => 1250
  | .SPEED => 130
  | .TEN => 100
  | .PIE => 1
  | .GCD => 1
  | .PRECISION => 1

/-- `Stats.m_scalar`: third component of each enum member of calc.py. -/
def Stats.m_scalar : Stats → ℤ
  | .CRIT => 400
  | _ => 0

/-- The integer branch of `Stat.get_multiplier` (calc.py lines 57-61):
`magic_num = 3300` except 340 for MAINSTAT, then
`m_factor * delta // magic_num + m_scalar`. -/
def statMultiplier (s : Stats) (value : ℤ) : ℤ :=
  let magic_num : ℤ := if s = Stats.MAINSTAT then 340 else 3300
  s.m_factor * (value - s.base) / magic_num + s.m_scalar

/-- `Stat.get_multiplier` (calc.py lines 49-61): `1.25` for direct hit,
otherwise the integer formula `statMultiplier` (returned as a float). -/
def get_multiplier (s : Stats) (value : ℤ) : ℚ :=
  if s = Stats.DH then 1.25 else (statMultiplier s value : ℚ)

/-- `ProbabalisticStat.crit_convert` first components (calc.py lines 74-78):
`p_factor` is 200 for CRIT, 550 for DH, default 1. -/
def p_factor : Stats → ℤ
  | .CRIT => 200
  | .DH => 550
  | _ => 1

/-- `ProbabalisticStat.crit_convert` second components (calc.py lines 74-78):
`p_scalar` is 50 for CRIT, default 0. -/
def p_scalar : Stats → ℤ
  | .CRIT => 50
  | _ => 0

/-- `ProbabalisticStat.get_p` (calc.py lines 90-96):
`(p_factor * delta // 3300 + p_scalar) / Stats.PRECISION.base`. -/
def get_p (s : Stats) (value : ℤ) : ℚ :=
  ((p_factor s * (value - s.base) / 3300 + p_scalar s : ℤ) : ℚ) / (Stats.PRECISION.base : ℚ)

/-- `CharacterStats.truncate` (calc.py lines 116-118): `(precision + val) / precision`. -/
def truncate (val : ℚ) (precision : ℚ) : ℚ :=
  (precision + val) / precision

/-- `CharacterStats.multiply_and_truncate` (calc.py lines 120-122):
`math.floor(val * truncate(factor, 1000))`. -/
def multiply_and_truncate (val : ℤ) (factor : ℚ) : ℤ :=
  ⌊(val : ℚ) * truncate factor 1000⌋

/-- `CharacterStats.apply_stat` (calc.py lines 124-126):
`multiply_and_truncate(damage, stat.get_multiplier())`. -/
def apply_stat (damage : ℤ) (s : Stats) (value : ℤ) : ℤ :=
  multiply_and_truncate damage (get_multiplier s value)

/-- The `Roles` enum of calc.py (lines 183-191). -/
inductive Roles
  | TANK | HEALER | MELEE | RANGED | CASTER
deriving DecidableEq, Fintype

/-- The `Buffs` enum of calc.py (lines 194-227): one tag per raid buff. -/
inductive Buffs
  | CHAIN | DIV | TRICK | LITANY | BROTHERHOOD | BV | BARD_CRIT | BARD_DH
  | TECH | DEVOTION | EMBOLDEN | CARD | LORD_LADY | DSIGHT_SELF | DSIGHT_OTHER
  | DEVILMENT
deriving DecidableEq, Fintype

/-- `Buffs.multiplier`: first component of each enum member of calc.py. -/
def Buffs.multiplier : Buffs → ℚ
  | .CHAIN => 0.1
  | .DIV => 0.06
  | .TRICK => 0.05
  | .LITANY => 0.1
  | .BROTHERHOOD => 0.05
  | .BV => 0.2
  | .BARD_CRIT => 0.02
  | .BARD_DH => 0.03
  | .TECH => 0.05
  | .DEVOTION => 0.05
  | .EMBOLDEN => 0.1
  | .CARD => 0.06
  | .LORD_LADY => 0.08
  | .DSIGHT_SELF => 0.1
  | .DSIGHT_OTHER => 0.05
  | .DEVILMENT => 0.2

/-- `Buffs.duration_sec`: second component of each enum member of calc.py. -/
def Buffs.duration_sec : Buffs → ℚ
  | .CHAIN => 15
  | .DIV => 15
  | .TRICK => 15
  | .LITANY => 20
  | .BROTHERHOOD => 15
  | .BV => 20
  | .BARD_CRIT => 30
  | .BARD_DH => 20
  | .TECH => 20
  | .DEVOTION => 15
  | .EMBOLDEN => 20
  | .CARD => 15
  | .LORD_LADY => 15
  | .DSIGHT_SELF => 20
  | .DSIGHT_OTHER => 20
  | .DEVILMENT => 20

/-- `Buffs.cooldown_sec`: third component of each enum member of calc.py. -/
def Buffs.cooldown_sec : Buffs → ℚ
  | .CHAIN => 120
  | .DIV => 120
  | .TRICK => 60
  | .LITANY => 180
  | .BROTHERHOOD => 90
  | .BV => 180
  | .BARD_CRIT => 80
  | .BARD_DH => 80
  | .TECH => 120
  | .DEVOTION => 180
  | .EMBOLDEN => 120
  | .CARD => 30
  | .LORD_LADY => 30
  | .DSIGHT_SELF => 120
  | .DSIGHT_OTHER => 120
  | .DEVILMENT => 120

/-- `Buffs.crit_buffs` (calc.py lines 229-231). -/
def Buffs.crit_buffs : Finset Buffs :=
  {Buffs.CHAIN, Buffs.LITANY, Buffs.DEVILMENT, Buffs.BARD_CRIT}

/-- `Buffs.dh_buffs` (calc.py lines 233-235). -/
def Buffs.dh_buffs : Finset Buffs :=
  {Buffs.BV, Buffs.BARD_DH, Buffs.DEVILMENT}

/-- `Buffs.avg_buff_effect` (calc.py lines 237-239):
`multiplier * duration_sec / cooldown_sec`. -/
def Buffs.avg_buff_effect (b : Buffs) : ℚ :=
  b.multiplier * b.duration_sec / b.cooldown_sec

/-- The `Jobs` enum of calc.py (lines 242-273). -/
inductive Jobs
  | SCH | AST | WHM | PLD | WAR | DRK | GNB | NIN | DRG | MNK | SAM
  | MCH | DNC | BRD | SMN | BLM | RDM
deriving DecidableEq, Fintype

/-- `Jobs.job_mod`: first component of each enum member of calc.py. -/
def Jobs.job_mod : Jobs → ℤ
  | .SCH => 115
  | .AST => 115
  | .WHM => 115
  | .PLD => 110
  | .WAR => 110
  | .DRK => 110
  | .GNB => 110
  | .NIN => 110
  | .DRG => 115
  | .MNK => 110
  | .SAM => 112
  | .MCH => 115
  | .DNC => 115
  | .BRD => 115
  | .SMN => 115
  | .BLM => 115
  | .RDM => 115

/-- `Jobs.role`: second component of each enum member of calc.py. -/
def Jobs.role : Jobs → Roles
  | .SCH => Roles.HEALER
  | .AST => Roles.HEALER
  | .WHM => Roles.HEALER
  | .PLD => Roles.TANK
  | .WAR => Roles.TANK
  | .DRK => Roles.TANK
  | .GNB => Roles.TANK
  | .NIN => Roles.MELEE
  | .DRG => Roles.MELEE
  | .MNK => Roles.MELEE
  | .SAM => Roles.MELEE
  | .MCH => Roles.RANGED
  | .DNC => Roles.RANGED
  | .BRD => Roles.RANGED
  | .SMN => Roles.CASTER
  | .BLM => Roles.CASTER
  | .RDM => Roles.CASTER

/-- `Jobs.raidbuff`: third component of each enum member of calc.py. -/
def Jobs.raidbuff : Jobs → List Buffs
  | .SCH => [Buffs.CHAIN]
  | .AST => [Buffs.DIV]
  | .WHM => []
  | .PLD => []
  | .WAR => []
  | .DRK => []
  | .GNB => []
  | .NIN => [Buffs.TRICK]
  | .DRG => [Buffs.LITANY]
  | .MNK => [Buffs.BROTHERHOOD]
  | .SAM => []
  | .MCH => []
  | .DNC => [Buffs.TECH]
  | .BRD => [Buffs.BV, Buffs.BARD_CRIT, Buffs.BARD_DH]
  | .SMN => [Buffs.DEVOTION]
  | .BLM => []
  | .RDM => [Buffs.EMBOLDEN]

/-- The `Comp` object of calc.py (lines 276-288): the attributes set by
`Comp.__init__`.  `calc_damage` only reads `raidbuffs` and `n_roles`. -/
structure Comp where
  jobs : List Jobs
  raidbuffs : Finset Buffs
  n_roles : ℕ

/-- `Comp.__init__` (calc.py lines 285-288): `raidbuffs` is the set of all
buffs of all listed jobs, `n_roles` the number of distinct roles. -/
def Comp.ofJobs (jobs : List Jobs) : Comp :=
  { jobs := jobs
    raidbuffs := (jobs.flatMap Jobs.raidbuff).toFinset
    n_roles := (jobs.map Jobs.role).toFinset.card }

/-- `CharacterStats.__init__` (calc.py lines 105-114): the raw stat line.
Each field holds the raw value of the corresponding `Stat` attribute. -/
structure CharacterStats where
  job : Jobs
  wd : ℤ
  mainstat : ℤ
  det : ℤ
  crit : ℤ
  dh : ℤ
  speed : ℤ
  ten : ℤ
  pie : ℤ

/-- The `if not crit_rate: crit_rate = ...get_p()` idiom of calc.py lines
164-168: a Python `None` or a zero rate falls back to the character's own
probability. -/
def effectiveRate (override : Option ℚ) (fallback : ℚ) : ℚ :=
  match override with
  | none => fallback
  | some r => if r = 0 then fallback else r

/-- The crit half of the buff loop of calc.py lines 171-175: summed over the
set `comp.raidbuffs`, each buff in `crit_buffs` adds `avg_buff_effect()`. -/
def critBuffTotal (comp : Comp) : ℚ :=
  ∑ b ∈ comp.raidbuffs, (if b ∈ Buffs.crit_buffs then b.avg_buff_effect else 0)

/-- The dh half of the buff loop of calc.py lines 171-175: the `elif` only
reaches buffs that are not in `crit_buffs`. -/
def dhBuffTotal (comp : Comp) : ℚ :=
  ∑ b ∈ comp.raidbuffs,
    (if b ∉ Buffs.crit_buffs ∧ b ∈ Buffs.dh_buffs then b.avg_buff_effect else 0)

/-- Lines 139-155 of `CharacterStats.calc_damage`: the deterministic damage
pipeline producing the post-trait damage `D`.  The mainstat multiplier is
`get_multiplier` of a non-DH stat, hence the integer `statMultiplier`. -/
def post_trait_damage (c : CharacterStats) (potency : ℤ) (comp : Comp)
    (is_dot : Bool) : ℤ :=
  let modified_mainstat : ℤ := ⌊(c.mainstat : ℚ) * (1 + (0.01 : ℚ) * comp.n_roles)⌋
  let damage0 : ℤ :=
    potency * (c.wd + 340 * c.job.job_mod / 1000) *
      (100 + statMultiplier Stats.MAINSTAT modified_mainstat) / 100
  let damage1 := apply_stat damage0 Stats.DET c.det
  let damage2 := apply_stat damage1 Stats.TEN c.ten
  let damage3 := if is_dot then apply_stat damage2 Stats.SPEED c.speed else damage2
  let damage4 := damage3 / 100
  if c.job.role = Roles.HEALER then ⌊(damage4 : ℚ) * 1.3⌋ else damage4

/-- `CharacterStats.calc_damage` (calc.py lines 128-180). -/
def calc_damage (c : CharacterStats) (potency : ℤ) (comp : Comp) (is_dot : Bool)
    (crit_rate dh_rate : Option ℚ) : ℚ :=
  let damage := post_trait_damage c potency comp is_dot
  let crit_damage := apply_stat damage Stats.CRIT c.crit
  let dh_damage := damage * Stats.DH.m_factor / 1000
  let cdh_damage := crit_damage * Stats.DH.m_factor / 1000
  let cr := effectiveRate crit_rate (get_p Stats.CRIT c.crit) + critBuffTotal comp
  let dr := effectiveRate dh_rate (get_p Stats.DH c.dh) + dhBuffTotal comp
  let cdh_rate := cr * dr
  let normal_rate := 1 - cr - dr + cdh_rate
  (damage : ℚ) * normal_rate + (crit_damage : ℚ) * (cr - cdh_rate) +
    (dh_damage : ℚ) * (dr - cdh_rate) + (cdh_damage : ℚ) * cdh_rate

/-- Ability potencies of `SchPps` (sch.py lines 8-11). -/
def r2_potency : ℚ := 200

/-- `SchPps.b3_potency` (sch.py line 9). -/
def b3_potency : ℚ := 290

/-- `SchPps.bio_potency` (sch.py line 10). -/
def bio_potency : ℚ := 70

/-- `SchPps.ed_potency` (sch.py line 11). -/
def ed_potency : ℚ := 100

/-- Python's `%` on floats with a positive modulus: `x - y * floor(x / y)`. -/
def qmod (x y : ℚ) : ℚ :=
  x - y * ⌊x / y⌋

/-- `SchPps.total_potency_spreadsheet_port` (sch.py lines 18-42).
`character_stats` enters only through `get_gcd()` and `get_dot_scalar()`
(defined in `backend/pps/pps.py`, which is not part of the damage core),
so the model takes the GCD `short_gcd` and the speed scalar `sps_scalar`
directly, as the spec's RotationModel contract does. -/
def total_potency_spreadsheet_port (short_gcd sps_scalar caster_tax : ℚ)
    (ed_per_min num_filler_casts : ℤ) : ℚ :=
  let result0 : ℚ := 3 * ed_potency * ed_per_min
  let result1 : ℚ :=
    if 1.5 < qmod (30 - 2 * short_gcd) (short_gcd + caster_tax) then
      result0 + (6 * (⌈(30 - 2 * short_gcd) / (short_gcd + caster_tax)⌉ : ℚ) * b3_potency
        + 2 * b3_potency + 4 * r2_potency)
        + 6 * 10 * sps_scalar * bio_potency
    else
      result0 + (6 * (⌊(30 - 2 * short_gcd) / (short_gcd + caster_tax)⌋ : ℚ) * b3_potency
        + 2 * b3_potency + 4 * r2_potency)
        + 6 * 9 * sps_scalar * bio_potency
        + 6 * ((3 - qmod (30 - 2 * short_gcd) (short_gcd + caster_tax)) / 3)
          * sps_scalar * bio_potency
  result1 - 3 * num_filler_casts * b3_potency

/-- `SchPps.get_cycle` (sch.py lines 45-53). -/
def get_cycle (short_gcd caster_tax : ℚ) : ℚ :=
  if 1.5 < qmod (30 - 2 * short_gcd) (short_gcd + caster_tax) then
    6 * (2 * short_gcd + (⌈(30 - 2 * short_gcd) / (short_gcd + caster_tax)⌉ : ℚ)
      * (short_gcd + caster_tax)) - 1 * caster_tax
  else
    6 * (2 * short_gcd + (⌊(30 - 2 * short_gcd) / (short_gcd + caster_tax)⌋ : ℚ)
      * (short_gcd + caster_tax)) - 1 * caster_tax

/-- `SchPps.get_pps` (sch.py lines 13-14). -/
def get_pps (short_gcd sps_scalar caster_tax : ℚ)
    (ed_per_min num_filler_casts : ℤ) : ℚ :=
  total_potency_spreadsheet_port short_gcd sps_scalar caster_tax ed_per_min num_filler_casts /
    get_cycle short_gcd caster_tax

/-- Spec-side operation, from §4.3 step 3 of the spec:
`floor(damage * (1 + multiplier/1000))`. -/
def spec_apply (damage m : ℤ) : ℤ :=
  ⌊(damage : ℚ) * (1 + (m : ℚ) / 1000)⌋

/-! ## General helper lemmas -/

/-- All `m_factor` constants are nonnegative. -/
lemma m_factor_nonneg : ∀ s : Stats, 0 ≤ s.m_factor := by decide

/-- All job modifiers are positive. -/
lemma job_mod_pos : ∀ j : Jobs, 0 < j.job_mod := by decide

/-- Floor of a cast integer quotient is integer (Euclidean = floor) division. -/
lemma floor_intCast_div (a b : ℤ) (hb : 0 ≤ b) : ⌊(a : ℚ) / (b : ℚ)⌋ = a / b := by
  obtain ⟨n, rfl⟩ := Int.eq_ofNat_of_zero_le hb
  exact_mod_cast Rat.floor_intCast_div_natCast a n

/-- `multiply_and_truncate` at an integer factor is a single integer division. -/
lemma multiply_and_truncate_int (d m : ℤ) :
    multiply_and_truncate d (m : ℚ) = d * (1000 + m) / 1000 := by
  unfold multiply_and_truncate truncate
  have h : (d : ℚ) * ((1000 + (m : ℚ)) / 1000) = ((d * (1000 + m) : ℤ) : ℚ) / ((1000 : ℤ) : ℚ) := by
    push_cast
    ring
  rw [h, floor_intCast_div _ _ (by norm_num)]

/-- `apply_stat` of a non-direct-hit stat is a single integer division. -/
lemma apply_stat_eq (s : Stats) (hs : s ≠ Stats.DH) (d v : ℤ) :
    apply_stat d s v = d * (1000 + statMultiplier s v) / 1000 := by
  unfold apply_stat get_multiplier
  rw [if_neg hs, multiply_and_truncate_int]

/-- The spec's `floor(damage * (1 + multiplier/1000))` is a single integer division. -/
lemma spec_apply_eq (d m : ℤ) : spec_apply d m = d * (1000 + m) / 1000 := by
  unfold spec_apply
  have h : (d : ℚ) * (1 + (m : ℚ) / 1000) = ((d * (1000 + m) : ℤ) : ℚ) / ((1000 : ℤ) : ℚ) := by
    push_cast
    ring
  rw [h, floor_intCast_div _ _ (by norm_num)]

/-- `apply_stat` of a non-direct-hit stat agrees with the spec-side operation. -/
lemma apply_stat_eq_spec (s : Stats) (hs : s ≠ Stats.DH) (d v : ℤ) :
    apply_stat d s v = spec_apply d (statMultiplier s v) := by
  rw [apply_stat_eq s hs, spec_apply_eq]

/-! ## Claims C4 and C6: `get_multiplier` formulas -/

/-- Claim C4 (counterexample): the claim fails for the direct-hit stat: at its
base value 380, `get_multiplier` returns the fixed 1.25, not its `m_scalar` 0. -/
theorem get_multiplier_dh_at_base_ne_scalar :
    get_multiplier Stats.DH Stats.DH.base ≠ (Stats.DH.m_scalar : ℚ) := by
  norm_num [get_multiplier, Stats.m_scalar, Stats.base]

/-- Claim C4 (amended): for every recognized stat kind other than direct hit,
`get_multiplier` at a value exactly equal to the kind's base returns exactly
the kind's `m_scalar`. -/
theorem get_multiplier_at_base_eq_scalar :
    ∀ s : Stats, s ≠ Stats.DH → get_multiplier s s.base = (s.m_scalar : ℚ) := by
  decide

/-- Witness for C4: the DET stat at its base 340 yields multiplier 0. -/
theorem get_multiplier_at_base_eq_scalar_witness :
    Stats.DET ≠ Stats.DH ∧ get_multiplier Stats.DET Stats.DET.base = (Stats.DET.m_scalar : ℚ) :=
  ⟨by decide, get_multiplier_at_base_eq_scalar Stats.DET (by decide)⟩

/-- Claim C6: direct hit's multiplier is the constant 1.25 for every value;
mainstat divides the scaled delta by 340, every other stat by 3300, with the
floor division applied before the scalar is added. -/
theorem get_multiplier_formula :
    ∀ v : ℤ,
      get_multiplier Stats.DH v = 1.25 ∧
      get_multiplier Stats.MAINSTAT v =
        ((Stats.MAINSTAT.m_factor * (v - Stats.MAINSTAT.base) / 340 + Stats.MAINSTAT.m_scalar : ℤ) : ℚ) ∧
      ∀ s : Stats, s ≠ Stats.DH → s ≠ Stats.MAINSTAT →
        get_multiplier s v = ((s.m_factor * (v - s.base) / 3300 + s.m_scalar : ℤ) : ℚ) := by
  intro v
  refine ⟨rfl, rfl, ?_⟩
  intro s h1 h2
  unfold get_multiplier statMultiplier
  rw [if_neg h1, if_neg h2]

/-- Witness for C6: instantiated at value 0 and, for the third part, DET. -/
theorem get_multiplier_formula_witness :
    get_multiplier Stats.DH 0 = 1.25 ∧
    get_multiplier Stats.DET 0 =
      ((Stats.DET.m_factor * (0 - Stats.DET.base) / 3300 + Stats.DET.m_scalar : ℤ) : ℚ) :=
  ⟨(get_multiplier_formula 0).1, (get_multiplier_formula 0).2.2 Stats.DET (by decide) (by decide)⟩

/-! ## Claim C8: composition building -/

/-- Claim C8: the empty job list yields no roles and no raid buffs; building is
order-irrelevant; duplicate jobs collapse; `[SCH, SCH]` gives one role and the
buff set `{CHAIN}`. -/
theorem comp_ofJobs_facts :
    (Comp.ofJobs []).n_roles = 0 ∧ (Comp.ofJobs []).raidbuffs = ∅ ∧
    (Comp.ofJobs [Jobs.SCH, Jobs.SCH]).n_roles = 1 ∧
    (Comp.ofJobs [Jobs.SCH, Jobs.SCH]).raidbuffs = {Buffs.CHAIN} ∧
    (∀ l1 l2 : List Jobs, l1.Perm l2 →
      (Comp.ofJobs l1).raidbuffs = (Comp.ofJobs l2).raidbuffs ∧
      (Comp.ofJobs l1).n_roles = (Comp.ofJobs l2).n_roles) ∧
    (∀ (j : Jobs) (jobs : List Jobs),
      (Comp.ofJobs (j :: j :: jobs)).raidbuffs = (Comp.ofJobs (j :: jobs)).raidbuffs ∧
      (Comp.ofJobs (j :: j :: jobs)).n_roles = (Comp.ofJobs (j :: jobs)).n_roles) := by
  refine ⟨by decide, by decide, by decide, by decide, ?_, ?_⟩
  · intro l1 l2 h
    constructor
    · apply List.toFinset.ext
      intro x
      simp only [List.mem_flatMap]
      constructor
      · rintro ⟨a, ha, hx⟩
        exact ⟨a, h.mem_iff.mp ha, hx⟩
      · rintro ⟨a, ha, hx⟩
        exact ⟨a, h.mem_iff.mpr ha, hx⟩
    · show ((l1.map Jobs.role).toFinset).card = ((l2.map Jobs.role).toFinset).card
      rw [List.toFinset_eq_of_perm _ _ (h.map Jobs.role)]
  · intro j jobs
    constructor
    · apply List.toFinset.ext
      intro x
      simp only [List.mem_flatMap, List.mem_cons]
      constructor
      · rintro ⟨a, ha | ha | ha, hx⟩
        · exact ⟨a, Or.inl ha, hx⟩
        · exact ⟨a, Or.inl ha, hx⟩
        · exact ⟨a, Or.inr ha, hx⟩
      · rintro ⟨a, ha | ha, hx⟩
        · exact ⟨a, Or.inl ha, hx⟩
        · exact ⟨a, Or.inr (Or.inr ha), hx⟩
    · simp [Comp.ofJobs, List.map_cons, List.toFinset_cons, Finset.insert_idem]

/-- Witness for C8: order-irrelevance applied to the concrete permutation
`[SCH, AST] ~ [AST, SCH]`. -/
theorem comp_ofJobs_facts_witness :
    (Comp.ofJobs [Jobs.SCH, Jobs.AST]).raidbuffs = (Comp.ofJobs [Jobs.AST, Jobs.SCH]).raidbuffs ∧
    (Comp.ofJobs [Jobs.SCH, Jobs.AST]).n_roles = (Comp.ofJobs [Jobs.AST, Jobs.SCH]).n_roles :=
  comp_ofJobs_facts.2.2.2.2.1 [Jobs.SCH, Jobs.AST] [Jobs.AST, Jobs.SCH]
    (List.Perm.swap Jobs.AST Jobs.SCH [])

/-! ## Claims C5 and C10: raid-buff families -/

/-- Claim C5 (counterexample): the crit-boosting and direct-hit-boosting
families are not disjoint: DEVILMENT belongs to both. -/
theorem crit_dh_families_overlap :
    Buffs.DEVILMENT ∈ Buffs.crit_buffs ∧ Buffs.DEVILMENT ∈ Buffs.dh_buffs := by
  decide

/-- Claim C5 (amended): the two families overlap (DEVILMENT is in both), and
`calc_damage` adds each raid buff's average-uptime contribution to the crit
rate when it is in the crit family, and to the dh rate only when it is in the
dh family but not the crit family; buffs in neither family contribute to
neither rate. -/
theorem buff_family_rate_application :
    (Buffs.DEVILMENT ∈ Buffs.crit_buffs ∧ Buffs.DEVILMENT ∈ Buffs.dh_buffs) ∧
    ∀ comp : Comp,
      critBuffTotal comp = ∑ b ∈ comp.raidbuffs ∩ Buffs.crit_buffs, b.avg_buff_effect ∧
      dhBuffTotal comp =
        ∑ b ∈ comp.raidbuffs ∩ (Buffs.dh_buffs \ Buffs.crit_buffs), b.avg_buff_effect := by
  refine ⟨⟨by decide, by decide⟩, ?_⟩
  intro comp
  constructor
  · rw [critBuffTotal, Finset.sum_ite_mem]
  · rw [dhBuffTotal, ← Finset.sum_ite_mem]
    apply Finset.sum_congr rfl
    intro b _
    by_cases hc : b ∈ Buffs.crit_buffs <;> by_cases hd : b ∈ Buffs.dh_buffs <;>
      simp [hc, hd, Finset.mem_sdiff]

/-- Claim C10: in any composition containing DEVILMENT, the dh-rate buff total
is unchanged when DEVILMENT is removed, while the crit-rate buff total contains
exactly DEVILMENT's average-uptime contribution on top of the rest; moreover a
composition whose buffs all lie in the crit family contributes nothing at all
to the dh rate. -/
theorem devilment_only_boosts_crit (comp : Comp)
    (h : Buffs.DEVILMENT ∈ comp.raidbuffs) :
    critBuffTotal comp = Buffs.DEVILMENT.avg_buff_effect +
      critBuffTotal ⟨comp.jobs, comp.raidbuffs.erase Buffs.DEVILMENT, comp.n_roles⟩ ∧
    dhBuffTotal comp =
      dhBuffTotal ⟨comp.jobs, comp.raidbuffs.erase Buffs.DEVILMENT, comp.n_roles⟩ ∧
    ∀ comp' : Comp, comp'.raidbuffs ⊆ Buffs.crit_buffs → dhBuffTotal comp' = 0 := by
  have hdc : Buffs.DEVILMENT ∈ Buffs.crit_buffs := by decide
  refine ⟨?_, ?_, ?_⟩
  · rw [critBuffTotal, critBuffTotal]
    rw [← Finset.add_sum_erase comp.raidbuffs _ h, if_pos hdc]
  · rw [dhBuffTotal, dhBuffTotal]
    exact (Finset.sum_erase comp.raidbuffs (by simp [hdc])).symm
  · intro comp' hsub
    apply Finset.sum_eq_zero
    intro b hb
    have hc : b ∈ Buffs.crit_buffs := hsub hb
    simp [hc]

/-- Witness for C10: a composition whose raid-buff set is exactly
`{DEVILMENT}`. -/
theorem devilment_only_boosts_crit_witness :
    critBuffTotal ⟨[], {Buffs.DEVILMENT}, 0⟩ = Buffs.DEVILMENT.avg_buff_effect +
      critBuffTotal ⟨[], Finset.erase {Buffs.DEVILMENT} Buffs.DEVILMENT, 0⟩ ∧
    dhBuffTotal ⟨[], {Buffs.DEVILMENT}, 0⟩ =
      dhBuffTotal ⟨[], Finset.erase {Buffs.DEVILMENT} Buffs.DEVILMENT, 0⟩ :=
  ⟨(devilment_only_boosts_crit ⟨[], {Buffs.DEVILMENT}, 0⟩ (by decide)).1,
   (devilment_only_boosts_crit ⟨[], {Buffs.DEVILMENT}, 0⟩ (by decide)).2.1⟩

/-! ## Claim C1: the full damage pipeline -/

/-- Claim C1: `calc_damage` is exactly the spec's integer pipeline: the base
subtotal from potency, weapon damage, job modifier and the role-inflated
mainstat multiplier; then determination, tenacity and (for DoTs) speed applied
by independent `floor(damage * (1 + multiplier/1000))` steps; floor division
by 100; the healer 1.3 trait floor; and the probability-weighted sum of the
four outcome damages. -/
theorem calc_damage_matches_spec_pipeline (c : CharacterStats) (pot : ℤ) (comp : Comp)
    (dot : Bool) (cro dro : Option ℚ) :
    calc_damage c pot comp dot cro dro =
      (let msv : ℤ := ⌊(c.mainstat : ℚ) * (1 + (0.01 : ℚ) * comp.n_roles)⌋
       let base : ℤ := pot * (c.wd + 340 * c.job.job_mod / 1000) *
         (100 + statMultiplier Stats.MAINSTAT msv) / 100
       let d1 : ℤ := spec_apply base (statMultiplier Stats.DET c.det)
       let d2 : ℤ := spec_apply d1 (statMultiplier Stats.TEN c.ten)
       let d3 : ℤ := if dot then spec_apply d2 (statMultiplier Stats.SPEED c.speed) else d2
       let d4 : ℤ := d3 / 100
       let D : ℤ := if c.job.role = Roles.HEALER then ⌊(d4 : ℚ) * 1.3⌋ else d4
       let critD : ℤ := spec_apply D (statMultiplier Stats.CRIT c.crit)
       let dhD : ℤ := D * 1250 / 1000
       let cdhD : ℤ := critD * 1250 / 1000
       let cr : ℚ := effectiveRate cro (get_p Stats.CRIT c.crit) + critBuffTotal comp
       let dr : ℚ := effectiveRate dro (get_p Stats.DH c.dh) + dhBuffTotal comp
       let cdh : ℚ := cr * dr
       (D : ℚ) * (1 - cr - dr + cdh) + (critD : ℚ) * (cr - cdh) +
         (dhD : ℚ) * (dr - cdh) + (cdhD : ℚ) * cdh) := by
  have hdet := apply_stat_eq_spec Stats.DET (by decide)
  have hten := apply_stat_eq_spec Stats.TEN (by decide)
  have hspd := apply_stat_eq_spec Stats.SPEED (by decide)
  have hcrit := apply_stat_eq_spec Stats.CRIT (by decide)
  simp only [calc_damage, post_trait_damage, hdet, hten, hspd, hcrit, Stats.m_factor]

/-! ## Claim C3: crit/dh rate overrides -/

/-- Claim C3 (counterexample): with caller-supplied overrides
`crit_rate = 0, dh_rate = 0`, `calc_damage` does NOT return the plain
post-trait damage `D`: a zero override is falsy in Python and falls back to
the character's own probabilities (here crit probability 0.05), giving
139.7 instead of D = 137. -/
theorem calc_damage_zero_override_ne_plain :
    calc_damage ⟨Jobs.PLD, 100, 340, 340, 380, 380, 380, 380, 340⟩ 100 (Comp.ofJobs [])
      false (some 0) (some 0) ≠
    ((post_trait_damage ⟨Jobs.PLD, 100, 340, 340, 380, 380, 380, 380, 340⟩ 100
      (Comp.ofJobs []) false : ℤ) : ℚ) := by
  have hD : post_trait_damage ⟨Jobs.PLD, 100, 340, 340, 380, 380, 380, 380, 340⟩ 100
      ⟨[], ∅, 0⟩ false = 137 := by
    norm_num [post_trait_damage, apply_stat_eq Stats.DET (by decide),
      apply_stat_eq Stats.TEN (by decide), statMultiplier, Stats.m_factor, Stats.base,
      Stats.m_scalar, Jobs.job_mod, Jobs.role]
    decide
  have hC : apply_stat 137 Stats.CRIT (380 : ℤ) = 191 := by
    norm_num [apply_stat_eq Stats.CRIT (by decide), statMultiplier, Stats.m_factor,
      Stats.base, Stats.m_scalar]
  norm_num [calc_damage, hD, hC, effectiveRate, get_p, critBuffTotal, dhBuffTotal,
    Comp.ofJobs, p_factor, p_scalar, Stats.base, Stats.m_factor]

/-- Claim C3 (amended): a zero override behaves exactly like an absent one
(the character's own `ProbabilisticStat` probabilities are used for `None`
and for 0), and a nonzero caller-supplied override is used as given. -/
theorem calc_damage_zero_override_fallback (c : CharacterStats) (pot : ℤ) (comp : Comp)
    (dot : Bool) (fb : ℚ) :
    calc_damage c pot comp dot (some 0) (some 0) = calc_damage c pot comp dot none none ∧
    (∀ r : ℚ, r ≠ 0 → effectiveRate (some r) fb = r) ∧
    effectiveRate none fb = fb := by
  refine ⟨?_, ?_, rfl⟩
  · simp only [calc_damage, effectiveRate]
    norm_num
  · intro r hr
    simp [effectiveRate, hr]

/-- Witness for C3: concrete zero-override equality and a concrete nonzero
override that is taken verbatim. -/
theorem calc_damage_zero_override_fallback_witness :
    calc_damage ⟨Jobs.SCH, 0, 0, 0, 0, 0, 0, 0, 0⟩ 0 (Comp.ofJobs []) false (some 0) (some 0) =
      calc_damage ⟨Jobs.SCH, 0, 0, 0, 0, 0, 0, 0, 0⟩ 0 (Comp.ofJobs []) false none none ∧
    effectiveRate (some (1/2)) 0 = 1/2 :=
  ⟨(calc_damage_zero_override_fallback ⟨Jobs.SCH, 0, 0, 0, 0, 0, 0, 0, 0⟩ 0
      (Comp.ofJobs []) false 0).1,
   (calc_damage_zero_override_fallback ⟨Jobs.SCH, 0, 0, 0, 0, 0, 0, 0, 0⟩ 0
      (Comp.ofJobs []) false 0).2.1 (1/2) (by norm_num)⟩

/-! ## Claim C2: the rotation model's 1.5-second branch -/

/-- Claim C2: both the per-cycle potency total and the cycle duration branch
on the strict comparison `((30 - 2*gcd) mod (gcd + castTax)) > 1.5`: strictly
above 1.5 the filler count is the ceiling and one extra DoT tick (10 per
sub-cycle) is attributed; at or below 1.5 (including exactly 1.5) the count is
the floor and a fractional partial tick `(3 - remainder)/3` of one tick's
potency, scaled by the cycle's tick count and speed scalar, is added. -/
theorem sch_branch_selection (g s t : ℚ) (e f : ℤ) :
    (1.5 < qmod (30 - 2 * g) (g + t) →
      total_potency_spreadsheet_port g s t e f =
        3 * ed_potency * e
          + 6 * (⌈(30 - 2 * g) / (g + t)⌉ : ℚ) * b3_potency
          + 2 * b3_potency + 4 * r2_potency
          + 6 * 10 * s * bio_potency
          - 3 * f * b3_potency ∧
      get_cycle g t =
        6 * (2 * g + (⌈(30 - 2 * g) / (g + t)⌉ : ℚ) * (g + t)) - 1 * t) ∧
    (qmod (30 - 2 * g) (g + t) ≤ 1.5 →
      total_potency_spreadsheet_port g s t e f =
        3 * ed_potency * e
          + 6 * (⌊(30 - 2 * g) / (g + t)⌋ : ℚ) * b3_potency
          + 2 * b3_potency + 4 * r2_potency
          + 6 * 9 * s * bio_potency
          + 6 * ((3 - qmod (30 - 2 * g) (g + t)) / 3) * s * bio_potency
          - 3 * f * b3_potency ∧
      get_cycle g t =
        6 * (2 * g + (⌊(30 - 2 * g) / (g + t)⌋ : ℚ) * (g + t)) - 1 * t) := by
  constructor
  · intro h
    constructor
    · rw [total_potency_spreadsheet_port]
      simp only [if_pos h]
      ring
    · rw [get_cycle, if_pos h]
  · intro h
    constructor
    · rw [total_potency_spreadsheet_port]
      simp only [if_neg (not_lt.mpr h)]
      ring
    · rw [get_cycle, if_neg (not_lt.mpr h)]

/-- Witness for C2: at `gcd = 9/4`, `castTax = 3/4` the remainder is exactly
1.5, and the floor branch is the one taken. -/
theorem sch_branch_selection_witness :
    qmod (30 - 2 * (9/4 : ℚ)) ((9/4 : ℚ) + (3/4 : ℚ)) ≤ 1.5 ∧
    get_cycle (9/4 : ℚ) (3/4 : ℚ) =
      6 * (2 * (9/4 : ℚ) + (⌊(30 - 2 * (9/4 : ℚ)) / ((9/4 : ℚ) + (3/4 : ℚ))⌋ : ℚ)
        * ((9/4 : ℚ) + (3/4 : ℚ))) - 1 * (3/4 : ℚ) := by
  have hfl : ⌊(30 - 2 * (9/4 : ℚ)) / ((9/4 : ℚ) + (3/4 : ℚ))⌋ = 8 := by
    have hx : (30 - 2 * (9/4 : ℚ)) / ((9/4 : ℚ) + (3/4 : ℚ)) = 17/2 := by norm_num
    rw [hx, Int.floor_eq_iff]
    norm_num
  have hq : qmod (30 - 2 * (9/4 : ℚ)) ((9/4 : ℚ) + (3/4 : ℚ)) ≤ 1.5 := by
    rw [qmod, hfl]
    norm_num
  exact ⟨hq, ((sch_branch_selection (9/4) 1 (3/4) 4 0).2 hq).2⟩

/-! ## Claim C9: potency per second -/

/-- Claim C9 (counterexample): `get_pps` is not nonnegative for every
omitted-filler-cast count: with 1000 omitted filler casts the total potency
(and hence the PPS) is negative. -/
theorem get_pps_negative_example :
    get_pps (5/2 : ℚ) 1 (3/25 : ℚ) 4 1000 < 0 := by
  have hfl : ⌊(30 - 2 * (5/2 : ℚ)) / ((5/2 : ℚ) + (3/25 : ℚ))⌋ = 9 := by
    have hx : (30 - 2 * (5/2 : ℚ)) / ((5/2 : ℚ) + (3/25 : ℚ)) = 1250/131 := by norm_num
    rw [hx, Int.floor_eq_iff]
    norm_num
  have hq : qmod (30 - 2 * (5/2 : ℚ)) ((5/2 : ℚ) + (3/25 : ℚ)) = 71/50 := by
    rw [qmod, hfl]
    norm_num
  rw [get_pps, total_potency_spreadsheet_port, get_cycle]
  rw [hq]
  norm_num [hfl, ed_potency, b3_potency, bio_potency, r2_potency, qmod]

/-- Claim C9 (amended): `get_pps` always equals the fixed-cycle total potency
divided by the cycle duration; the result is nonnegative provided the GCD lies
in (0, 15], the caster tax in [0, gcd], the burst frequency and speed scalar
are nonnegative, and no filler casts are omitted. -/
theorem get_pps_ratio_and_nonneg (g s t : ℚ) (e : ℤ)
    (hg0 : 0 < g) (hg15 : g ≤ 15) (ht0 : 0 ≤ t) (htg : t ≤ g) (he : 0 ≤ e) (hs : 0 ≤ s) :
    (∀ f : ℤ, get_pps g s t e f =
      total_potency_spreadsheet_port g s t e f / get_cycle g t) ∧
    0 ≤ get_pps g s t e 0 := by
  have hden : 0 < g + t := by linarith
  have hnum : (0 : ℚ) ≤ 30 - 2 * g := by linarith
  have hdiv : (0 : ℚ) ≤ (30 - 2 * g) / (g + t) := div_nonneg hnum (le_of_lt hden)
  have hflq : (0 : ℚ) ≤ (⌊(30 - 2 * g) / (g + t)⌋ : ℚ) := by
    exact_mod_cast Int.floor_nonneg.mpr hdiv
  have hclq : (0 : ℚ) ≤ (⌈(30 - 2 * g) / (g + t)⌉ : ℚ) := by
    exact_mod_cast Int.ceil_nonneg hdiv
  have heq : (0 : ℚ) ≤ (e : ℚ) := by exact_mod_cast he
  have hcyc : 0 ≤ get_cycle g t := by
    rw [get_cycle]
    split_ifs with h
    · nlinarith [mul_nonneg hclq (le_of_lt hden)]
    · nlinarith [mul_nonneg hflq (le_of_lt hden)]
  refine ⟨fun f => rfl, ?_⟩
  rw [get_pps]
  apply div_nonneg _ hcyc
  rw [total_potency_spreadsheet_port]
  simp only [ed_potency, b3_potency, bio_potency, r2_potency]
  split_ifs with h
  · push_cast
    nlinarith [hclq, hs, heq]
  · have hrem : qmod (30 - 2 * g) (g + t) ≤ 1.5 := not_lt.mp h
    have hterm : (0 : ℚ) ≤ (3 - qmod (30 - 2 * g) (g + t)) * s :=
      mul_nonneg (by linarith) hs
    push_cast
    nlinarith [hterm, hflq, hs, heq]

/-- Witness for C9: the default-like inputs `gcd = 2.5`, tax `0.12`,
four burst casts per minute, speed scalar 1. -/
theorem get_pps_ratio_and_nonneg_witness :
    get_pps (5/2 : ℚ) 1 (3/25 : ℚ) 4 7 =
      total_potency_spreadsheet_port (5/2 : ℚ) 1 (3/25 : ℚ) 4 7 /
        get_cycle (5/2 : ℚ) (3/25 : ℚ) ∧
    0 ≤ get_pps (5/2 : ℚ) 1 (3/25 : ℚ) 4 0 := by
  have h := get_pps_ratio_and_nonneg (5/2) 1 (3/25) 4 (by norm_num) (by norm_num)
    (by norm_num) (by norm_num) (by norm_num) (by norm_num)
  exact ⟨h.1 7, h.2⟩

/-! ## Claim C7: monotonicity in determination -/

/-- Claim C7 (counterexample): with a negative potency the damage pipeline is
negative and a higher determination makes it more negative: raising DET from
340 to 440 lowers the returned DPS (-38.8 < -37.75). -/
theorem calc_damage_det_not_monotone :
    calc_damage ⟨Jobs.PLD, 0, 340, 440, 380, 380, 380, 380, 340⟩ (-100) (Comp.ofJobs [])
        false none none <
      calc_damage ⟨Jobs.PLD, 0, 340, 340, 380, 380, 380, 380, 340⟩ (-100) (Comp.ofJobs [])
        false none none := by
  have hD1 : post_trait_damage ⟨Jobs.PLD, 0, 340, 340, 380, 380, 380, 380, 340⟩ (-100)
      ⟨[], ∅, 0⟩ false = -37 := by
    norm_num [post_trait_damage, apply_stat_eq Stats.DET (by decide),
      apply_stat_eq Stats.TEN (by decide), statMultiplier, Stats.m_factor, Stats.base,
      Stats.m_scalar, Jobs.job_mod, Jobs.role]
    decide
  have hD2 : post_trait_damage ⟨Jobs.PLD, 0, 340, 440, 380, 380, 380, 380, 340⟩ (-100)
      ⟨[], ∅, 0⟩ false = -38 := by
    norm_num [post_trait_damage, apply_stat_eq Stats.DET (by decide),
      apply_stat_eq Stats.TEN (by decide), statMultiplier, Stats.m_factor, Stats.base,
      Stats.m_scalar, Jobs.job_mod, Jobs.role]
    decide
  have hC1 : apply_stat (-37) Stats.CRIT (380 : ℤ) = -52 := by
    norm_num [apply_stat_eq Stats.CRIT (by decide), statMultiplier, Stats.m_factor,
      Stats.base, Stats.m_scalar]
  have hC2 : apply_stat (-38) Stats.CRIT (380 : ℤ) = -54 := by
    norm_num [apply_stat_eq Stats.CRIT (by decide), statMultiplier, Stats.m_factor,
      Stats.base, Stats.m_scalar]
  norm_num [calc_damage, hD1, hD2, hC1, hC2, effectiveRate, get_p, critBuffTotal,
    dhBuffTotal, Comp.ofJobs, p_factor, p_scalar, Stats.base, Stats.m_factor]

/-- `statMultiplier` is monotone in the raw stat value. -/
lemma statMultiplier_mono (s : Stats) (v1 v2 : ℤ) (h : v1 ≤ v2) :
    statMultiplier s v1 ≤ statMultiplier s v2 := by
  simp only [statMultiplier]
  have hm : 0 ≤ s.m_factor := m_factor_nonneg s
  have hmul : s.m_factor * (v1 - s.base) ≤ s.m_factor * (v2 - s.base) :=
    mul_le_mul_of_nonneg_left (by linarith) hm
  have hmagic : (0 : ℤ) < if s = Stats.MAINSTAT then 340 else 3300 := by
    split_ifs <;> norm_num
  exact add_le_add_right (Int.ediv_le_ediv hmagic hmul) _

/-- `statMultiplier` for the main stat: scaled delta floor-divided by 340. -/
lemma statMultiplier_mainstat (v : ℤ) :
    statMultiplier Stats.MAINSTAT v = 165 * (v - 340) / 340 := by
  simp [statMultiplier, Stats.m_factor, Stats.base, Stats.m_scalar]

/-- `statMultiplier` at value 0 is at least -1000 for every stat kind. -/
lemma statMultiplier_zero_lb : ∀ s : Stats, -1000 ≤ statMultiplier s 0 := by
  decide

/-- For a nonnegative raw value, `statMultiplier` stays at or above -1000,
i.e. `1 + multiplier/1000` stays nonnegative. -/
lemma statMultiplier_lb (s : Stats) (v : ℤ) (hv : 0 ≤ v) : -1000 ≤ statMultiplier s v := by
  have h := statMultiplier_mono s 0 v hv
  have h0 := statMultiplier_zero_lb s
  linarith

/-- `apply_stat` is monotone in the damage argument and preserves
nonnegativity when the multiplier is at least -1000. -/
lemma apply_stat_mono_nonneg (s : Stats) (hs : s ≠ Stats.DH) {d1 d2 : ℤ} (v : ℤ)
    (h : d1 ≤ d2) (hd : 0 ≤ d1) (hm : -1000 ≤ statMultiplier s v) :
    apply_stat d1 s v ≤ apply_stat d2 s v ∧ 0 ≤ apply_stat d1 s v := by
  rw [apply_stat_eq s hs, apply_stat_eq s hs]
  constructor
  · exact Int.ediv_le_ediv (by norm_num) (mul_le_mul_of_nonneg_right h (by linarith))
  · exact Int.ediv_nonneg (mul_nonneg hd (by linarith)) (by norm_num)

/-- `apply_stat` is monotone in the stat value when the damage is nonnegative. -/
lemma apply_stat_factor_mono (s : Stats) (hs : s ≠ Stats.DH) (d v1 v2 : ℤ)
    (hd : 0 ≤ d) (h : v1 ≤ v2) : apply_stat d s v1 ≤ apply_stat d s v2 := by
  rw [apply_stat_eq s hs, apply_stat_eq s hs]
  have := statMultiplier_mono s v1 v2 h
  exact Int.ediv_le_ediv (by norm_num) (mul_le_mul_of_nonneg_left (by linarith) hd)

/-- The deterministic damage pipeline is monotone in determination and
nonnegative, for in-domain inputs. -/
lemma post_trait_damage_det_mono (job : Jobs) (wd ms det1 det2 crit dh speed ten pie pot : ℤ)
    (comp : Comp) (dot : Bool)
    (hpot : 0 ≤ pot) (hwd : 0 ≤ wd) (hms : 340 ≤ ms) (hdet1 : 0 ≤ det1) (hdet : det1 ≤ det2)
    (hten : 0 ≤ ten) (hspd : 0 ≤ speed) :
    post_trait_damage ⟨job, wd, ms, det1, crit, dh, speed, ten, pie⟩ pot comp dot ≤
      post_trait_damage ⟨job, wd, ms, det2, crit, dh, speed, ten, pie⟩ pot comp dot ∧
    0 ≤ post_trait_damage ⟨job, wd, ms, det1, crit, dh, speed, ten, pie⟩ pot comp dot := by
  simp only [post_trait_damage]
  set mm : ℤ := ⌊(ms : ℚ) * (1 + (0.01 : ℚ) * (comp.n_roles : ℚ))⌋ with hmmdef
  have hmsq : (0 : ℚ) ≤ (ms : ℚ) := by exact_mod_cast le_trans (by norm_num) hms
  have hmm : ms ≤ mm := by
    have h1 : (ms : ℚ) ≤ (ms : ℚ) * (1 + (0.01 : ℚ) * (comp.n_roles : ℚ)) := by
      nlinarith [Nat.cast_nonneg (α := ℚ) comp.n_roles]
    calc ms = ⌊(ms : ℚ)⌋ := (Int.floor_intCast ms).symm
      _ ≤ mm := Int.floor_mono h1
  have hmsM : 0 ≤ statMultiplier Stats.MAINSTAT mm := by
    rw [statMultiplier_mainstat]
    exact Int.ediv_nonneg (by nlinarith) (by norm_num)
  have hjm : (0 : ℤ) ≤ 340 * job.job_mod / 1000 :=
    Int.ediv_nonneg (by nlinarith [job_mod_pos job]) (by norm_num)
  set D0 : ℤ := pot * (wd + 340 * job.job_mod / 1000) *
    (100 + statMultiplier Stats.MAINSTAT mm) / 100 with hD0def
  have hD0 : 0 ≤ D0 := by
    apply Int.ediv_nonneg _ (by norm_num)
    have h1 : (0 : ℤ) ≤ pot * (wd + 340 * job.job_mod / 1000) :=
      mul_nonneg hpot (by linarith)
    exact mul_nonneg h1 (by linarith)
  have hdetstep := apply_stat_factor_mono Stats.DET (by decide) D0 det1 det2 hD0 hdet
  have hdet1pos : 0 ≤ apply_stat D0 Stats.DET det1 :=
    (apply_stat_mono_nonneg Stats.DET (by decide) det1 (le_refl D0) hD0
      (statMultiplier_lb _ _ hdet1)).2
  have htenstep := apply_stat_mono_nonneg Stats.TEN (by decide) ten hdetstep hdet1pos
    (statMultiplier_lb _ _ hten)
  -- after the optional speed application
  have hafter :
      (if dot then apply_stat (apply_stat (apply_stat D0 Stats.DET det1) Stats.TEN ten)
          Stats.SPEED speed
        else apply_stat (apply_stat D0 Stats.DET det1) Stats.TEN ten) ≤
      (if dot then apply_stat (apply_stat (apply_stat D0 Stats.DET det2) Stats.TEN ten)
          Stats.SPEED speed
        else apply_stat (apply_stat D0 Stats.DET det2) Stats.TEN ten) ∧
      0 ≤ (if dot then apply_stat (apply_stat (apply_stat D0 Stats.DET det1) Stats.TEN ten)
          Stats.SPEED speed
        else apply_stat (apply_stat D0 Stats.DET det1) Stats.TEN ten) := by
    cases dot with
    | false => simpa using htenstep
    | true =>
      simpa using apply_stat_mono_nonneg Stats.SPEED (by decide) speed htenstep.1 htenstep.2
        (statMultiplier_lb _ _ hspd)
  have hdiv100 : ∀ {a b : ℤ}, a ≤ b → 0 ≤ a → a / 100 ≤ b / 100 ∧ 0 ≤ a / 100 := by
    intro a b hab ha
    exact ⟨Int.ediv_le_ediv (by norm_num) hab, Int.ediv_nonneg ha (by norm_num)⟩
  have hfinal := hdiv100 hafter.1 hafter.2
  by_cases hrole : job.role = Roles.HEALER
  · simp only [if_pos hrole]
    exact ⟨Int.floor_mono (mul_le_mul_of_nonneg_right (Int.cast_le.mpr hfinal.1) (by norm_num)),
      Int.floor_nonneg.mpr (mul_nonneg (by exact_mod_cast hfinal.2) (by norm_num))⟩
  · simp only [if_neg hrole]
    exact hfinal

/-- Claim C7 (amended): for in-domain inputs — nonnegative potency and weapon
damage, mainstat at or above its base 340, nonnegative stat values, and
effective crit/direct-hit rates lying in [0, 1] — raising the determination
raw value never decreases the DPS returned by `calc_damage`. -/
theorem calc_damage_det_monotone (job : Jobs) (wd ms det1 det2 crit dh speed ten pie pot : ℤ)
    (comp : Comp) (dot : Bool) (cro dro : Option ℚ)
    (hpot : 0 ≤ pot) (hwd : 0 ≤ wd) (hms : 340 ≤ ms) (hdet1 : 0 ≤ det1) (hdet : det1 ≤ det2)
    (hten : 0 ≤ ten) (hspd : 0 ≤ speed) (hcrit : 0 ≤ crit)
    (hcr0 : 0 ≤ effectiveRate cro (get_p Stats.CRIT crit) + critBuffTotal comp)
    (hcr1 : effectiveRate cro (get_p Stats.CRIT crit) + critBuffTotal comp ≤ 1)
    (hdr0 : 0 ≤ effectiveRate dro (get_p Stats.DH dh) + dhBuffTotal comp)
    (hdr1 : effectiveRate dro (get_p Stats.DH dh) + dhBuffTotal comp ≤ 1) :
    calc_damage ⟨job, wd, ms, det1, crit, dh, speed, ten, pie⟩ pot comp dot cro dro ≤
      calc_damage ⟨job, wd, ms, det2, crit, dh, speed, ten, pie⟩ pot comp dot cro dro := by
  obtain ⟨hmono, hpos⟩ := post_trait_damage_det_mono job wd ms det1 det2 crit dh speed ten pie
    pot comp dot hpot hwd hms hdet1 hdet hten hspd
  simp only [calc_damage]
  set D1 : ℤ := post_trait_damage ⟨job, wd, ms, det1, crit, dh, speed, ten, pie⟩ pot comp dot
  set D2 : ℤ := post_trait_damage ⟨job, wd, ms, det2, crit, dh, speed, ten, pie⟩ pot comp dot
  set cr : ℚ := effectiveRate cro (get_p Stats.CRIT crit) + critBuffTotal comp with hcrdef
  set dr : ℚ := effectiveRate dro (get_p Stats.DH dh) + dhBuffTotal comp with hdrdef
  have hC := apply_stat_mono_nonneg Stats.CRIT (by decide) crit hmono hpos
    (statMultiplier_lb _ _ hcrit)
  have hmf : Stats.DH.m_factor = 1250 := rfl
  have hDHm : D1 * Stats.DH.m_factor / 1000 ≤ D2 * Stats.DH.m_factor / 1000 := by
    rw [hmf]
    exact Int.ediv_le_ediv (by norm_num) (mul_le_mul_of_nonneg_right hmono (by norm_num))
  have hDH0 : 0 ≤ D1 * Stats.DH.m_factor / 1000 := by
    rw [hmf]
    exact Int.ediv_nonneg (mul_nonneg hpos (by norm_num)) (by norm_num)
  have hCDHm : apply_stat D1 Stats.CRIT crit * Stats.DH.m_factor / 1000 ≤
      apply_stat D2 Stats.CRIT crit * Stats.DH.m_factor / 1000 := by
    rw [hmf]
    exact Int.ediv_le_ediv (by norm_num) (mul_le_mul_of_nonneg_right hC.1 (by norm_num))
  have hCDH0 : 0 ≤ apply_stat D1 Stats.CRIT crit * Stats.DH.m_factor / 1000 := by
    rw [hmf]
    exact Int.ediv_nonneg (mul_nonneg hC.2 (by norm_num)) (by norm_num)
  have hnc : (0 : ℚ) ≤ 1 - cr - dr + cr * dr := by nlinarith
  have hccoef : (0 : ℚ) ≤ cr - cr * dr := by nlinarith
  have hdcoef : (0 : ℚ) ≤ dr - cr * dr := by nlinarith
  have hcdh : (0 : ℚ) ≤ cr * dr := mul_nonneg hcr0 hdr0
  have t1 : (D1 : ℚ) * (1 - cr - dr + cr * dr) ≤ (D2 : ℚ) * (1 - cr - dr + cr * dr) :=
    mul_le_mul_of_nonneg_right (Int.cast_le.mpr hmono) hnc
  have t2 : ((apply_stat D1 Stats.CRIT crit : ℤ) : ℚ) * (cr - cr * dr) ≤
      ((apply_stat D2 Stats.CRIT crit : ℤ) : ℚ) * (cr - cr * dr) :=
    mul_le_mul_of_nonneg_right (Int.cast_le.mpr hC.1) hccoef
  have t3 : ((D1 * Stats.DH.m_factor / 1000 : ℤ) : ℚ) * (dr - cr * dr) ≤
      ((D2 * Stats.DH.m_factor / 1000 : ℤ) : ℚ) * (dr - cr * dr) :=
    mul_le_mul_of_nonneg_right (Int.cast_le.mpr hDHm) hdcoef
  have t4 : ((apply_stat D1 Stats.CRIT crit * Stats.DH.m_factor / 1000 : ℤ) : ℚ) * (cr * dr) ≤
      ((apply_stat D2 Stats.CRIT crit * Stats.DH.m_factor / 1000 : ℤ) : ℚ) * (cr * dr) :=
    mul_le_mul_of_nonneg_right (Int.cast_le.mpr hCDHm) hcdh
  exact add_le_add (add_le_add (add_le_add t1 t2) t3) t4

/-- Witness for C7: base-stat character, determination raised from 340 to 440,
empty composition, no overrides. -/
theorem calc_damage_det_monotone_witness :
    (340 : ℤ) ≤ 440 ∧
    calc_damage ⟨Jobs.PLD, 100, 340, 340, 380, 380, 380, 380, 340⟩ 100 (Comp.ofJobs [])
        false none none ≤
      calc_damage ⟨Jobs.PLD, 100, 340, 440, 380, 380, 380, 380, 340⟩ 100 (Comp.ofJobs [])
        false none none := by
  refine ⟨by norm_num, ?_⟩
  apply calc_damage_det_monotone Jobs.PLD 100 340 340 440 380 380 380 380 340 100
    (Comp.ofJobs []) false none none (by norm_num) (by norm_num) (by norm_num) (by norm_num)
    (by norm_num) (by norm_num) (by norm_num) (by norm_num)
  all_goals
    norm_num [effectiveRate, get_p, critBuffTotal, dhBuffTotal, Comp.ofJobs, p_factor,
      p_scalar, Stats.base]
